import Mathlib

/-!
Shallow embedding of the TikTok ad-budget automation program
(`config.py`, `utils.py`, `tik_tok_api.py`, `main.py`) and proofs about it.
Python floats are modelled by `ℚ` (every constant in `config.py` is exactly
representable), Python `None`-able values by `Option`, raised exceptions by
`Except`, and the `while` loop of `retry` by a well-founded recursion on the
remaining attempt budget.
-/

/-! ## config.py -/

/-- `TARGET_ROAS = 1.5` from config.py. -/
def TARGET_ROAS : ℚ := 3 / 2

/-- `MAX_ADJUSTMENT = 0.75` from config.py. -/
def MAX_ADJUSTMENT : ℚ := 3 / 4

/-- `MIN_BUDGET = 50` from config.py. -/
def MIN_BUDGET : ℚ := 50

/-- `MIN_SPEND = 0` from config.py. -/
def MIN_SPEND : ℚ := 0

/-- `MIN_PAYMENT_RATE = 0` from config.py. -/
def MIN_PAYMENT_RATE : ℚ := 0

/-! ## tik_tok_api.py : the Campaign dataclass -/

/-- The `Campaign` dataclass of tik_tok_api.py.  In
`get_campaign_performance` the id comes from `dimensions.get("campaign_id")`
(possibly `None`) and the budget from `campaign_budgets.get(campaign_id)`
(possibly `None`), so both are `Option`s. -/
structure Campaign where
  campaign_id : Option String
  spend : ℚ
  total_complete_payment_rate : ℚ
  budget : Option ℚ
deriving DecidableEq

/-- The `TikTokAPIError` exception class, carrying its message. -/
structure TikTokAPIError where
  msg : String
deriving DecidableEq

/-! ## utils.py : BudgetPolicy -/

/-- `calculate_roas` from utils.py: `total_complete_payment_rate / spend`. -/
def calculate_roas (campaign : Campaign) : ℚ :=
  campaign.total_complete_payment_rate / campaign.spend

/-- `calculate_adjustment_factor` from utils.py:
`max(min((roas - TARGET_ROAS) / TARGET_ROAS, MAX_ADJUSTMENT), -MAX_ADJUSTMENT)`. -/
def calculate_adjustment_factor (roas : ℚ) : ℚ :=
  max (min ((roas - TARGET_ROAS) / TARGET_ROAS) MAX_ADJUSTMENT) (-MAX_ADJUSTMENT)

/-- `calculate_new_budget` from utils.py:
`max(current_budget * (1 + adjustment_factor), MIN_BUDGET)`. -/
def calculate_new_budget (current_budget adjustment_factor : ℚ) : ℚ :=
  max (current_budget * (1 + adjustment_factor)) MIN_BUDGET

/-! ## utils.py : retry

The operation is modelled as `op : Nat → Except ε α`, giving the outcome of
the call made at attempt counter value `n` (a Python callable can behave
differently on successive calls through its side effects).  `retryable e`
models `isinstance(e, exception_types)`; an exception outside
`exception_types` is not caught by the `except` clause and propagates at
once.  The result records the Python control flow: `ok` for a normal
`return`, `raised` for an exception leaving `retry`, and `fellThrough` for
the loop condition failing so that the function body ends and Python
returns `None`.  Alongside the result we count the calls made to `func` and
the `time.sleep(delay)` pauses performed. -/

/-- Outcome of a call to `retry`. -/
inductive RetryResult (ε α : Type) where
  | ok (a : α) : RetryResult ε α
  | raised (e : ε) : RetryResult ε α
  | fellThrough : RetryResult ε α
deriving DecidableEq

/-- The `while attempt <= max_retries` loop of `retry`, entered with counter
value `attempt`; `calls` and `delays` accumulate the number of invocations
of `func` and of sleeps performed so far. -/
def retryLoop {ε α : Type} (retryable : ε → Bool) (op : Nat → Except ε α)
    (max_retries : Int) (attempt : Nat) (calls delays : Nat) :
    RetryResult ε α × Nat × Nat :=
  if _h : (attempt : Int) ≤ max_retries then
    match op attempt with
    | Except.ok a => (RetryResult.ok a, calls + 1, delays)
    | Except.error e =>
      if retryable e then
        if (attempt : Int) + 1 > max_retries then
          (RetryResult.raised e, calls + 1, delays)
        else
          retryLoop retryable op max_retries (attempt + 1) (calls + 1) (delays + 1)
      else
        (RetryResult.raised e, calls + 1, delays)
  else
    (RetryResult.fellThrough, calls, delays)
termination_by (max_retries + 1 - attempt).toNat
decreasing_by
  omega

/-- `retry` from utils.py: run the loop from `attempt = 0`. -/
def retry {ε α : Type} (retryable : ε → Bool) (op : Nat → Except ε α)
    (max_retries : Int) : RetryResult ε α × Nat × Nat :=
  retryLoop retryable op max_retries 0 0 0

/-! ## tik_tok_api.py : get_campaign_performance

The two remote responses are inputs of the embedding: the campaign-list
response (`data.list`, one record per campaign with its id and budget) and
the report response (`data.list`, one row per campaign; a `StatRow` holds
the values after the extraction step of the source
`dimensions.get("campaign_id")`, `float(metrics.get("spend", 0))`,
`float(metrics.get("total_complete_payment_rate", 0))`). -/

/-- One record of the campaign-list response, as used by the source:
`c["campaign_id"]` and `c["budget"]`. -/
structure CampaignRec where
  campaign_id : String
  budget : ℚ
deriving DecidableEq

/-- One row of the report response after the field extraction of the source. -/
structure StatRow where
  campaign_id : Option String
  spend : ℚ
  total_complete_payment_rate : ℚ
deriving DecidableEq

/-- `campaign_budgets.get(campaign_id)`: lookup in the dict built by
`{c["campaign_id"]: c["budget"] for c in campaigns}`.  A dict comprehension
keeps the last record for a duplicated id, hence the reversed search; a
`None` key is absent from the dict. -/
def budgetLookup (campaigns : List CampaignRec) : Option String → Option ℚ
  | none => none
  | some i => (campaigns.reverse.find? (fun c => c.campaign_id = i)).map (·.budget)

/-- `get_campaign_performance` from tik_tok_api.py, as a function of the two
remote responses: if the campaign list is empty, return `[]` without the
report call; otherwise keep exactly the report rows with
`spend > min_spend and payment_rate > min_payment_rate`, each joined to
`campaign_budgets.get(campaign_id)`. -/
def get_campaign_performance (campaigns : List CampaignRec)
    (stats_list : List StatRow) (min_spend min_payment_rate : ℚ) :
    List Campaign :=
  if campaigns.isEmpty then []
  else
    stats_list.filterMap (fun stat =>
      if stat.spend > min_spend ∧ stat.total_complete_payment_rate > min_payment_rate then
        some { campaign_id := stat.campaign_id
               spend := stat.spend
               total_complete_payment_rate := stat.total_complete_payment_rate
               budget := budgetLookup campaigns stat.campaign_id }
      else none)

/-! ## tik_tok_api.py : the token-acquisition knot

`TikTokMarketingAPI` state relevant to tokens: `_access_token`,
`_token_expiry`, plus the configured `ad_id` and the current UTC time
(read-only during one call chain; time is modelled in seconds on `ℚ`).
The transport outcome of the one remote request the chain could reach (the
token endpoint) is an input `net`: either a `requests` failure or the
parsed JSON of the token-endpoint response.

The source has a knot: `access_token` (property) calls
`get_access_token`, whose body is a `_make_request` call, and
`_make_request` builds its headers by reading the `access_token` property
again.  The property is therefore embedded as a fuel-indexed function;
`none` means the fuel ran out, i.e. the chain is still recursing after
`fuel` nested reads of the property.  `_make_request` and
`get_access_token` are embedded as functions of the property they read, and
then tied to the fuel-indexed property. -/

/-- Token-related state of a `TikTokMarketingAPI` instance. -/
structure ClientState where
  access_token_cache : Option String
  token_expiry : Option ℚ
  ad_id : String
  now : ℚ
deriving DecidableEq

/-- Parsed JSON of a token-endpoint response:
`{code, message, data: {access_token, advertiser_ids}}`, every field
possibly missing. -/
structure TokenResponse where
  code : Option Int
  message : Option String
  data_access_token : Option String
  data_advertiser_ids : List String
deriving DecidableEq

/-- The dict returned by a successful `get_access_token`: always carries the
three keys, the token value possibly `None`. -/
structure TokenInfo where
  access_token : Option String
  advertiser_ids : List String
  ad_id_validity : Bool
deriving DecidableEq

/-- The refresh test of the `access_token` property:
`self._access_token is None or self._token_expiry is None or
datetime.now(timezone.utc) >= self._token_expiry`. -/
def needsRefresh (st : ClientState) : Bool :=
  match st.access_token_cache, st.token_expiry with
  | none, _ => true
  | some _, none => true
  | some _, some t => decide (st.now ≥ t)

/-- A value of the `access_token` property: the token string returned
(which is `self._access_token` and may be `None`) and the state after the
read. -/
abbrev PropValue := Option String × ClientState

/-- A property read, abstracted: `none` = fuel exhausted inside the read,
`some (Except.error e)` = the read raised `TikTokAPIError e`,
`some (Except.ok v)` = the read returned. -/
abbrev PropFun := ClientState → Except TikTokAPIError TokenResponse →
  Option (Except TikTokAPIError PropValue)

/-- `_make_request` from tik_tok_api.py for the token endpoint, as a
function of the `access_token` property it reads while building
`default_headers` (that read happens before the `try` block; an error it
raises leaves `_make_request` uncaught).  Only then is the HTTP request
attempted: a `requests` exception becomes
`TikTokAPIError("API request failed: ...")`, otherwise the parsed response
is returned. -/
def make_request_with (prop : PropFun) (st : ClientState)
    (net : Except TikTokAPIError TokenResponse) :
    Option (Except TikTokAPIError (TokenResponse × ClientState)) :=
  match prop st net with
  | none => none
  | some (Except.error e) => some (Except.error e)
  | some (Except.ok (_tok, st1)) =>
    match net with
    | Except.error e =>
      some (Except.error { msg := "API request failed: " ++ e.msg })
    | Except.ok resp => some (Except.ok (resp, st1))

/-- `get_access_token` from tik_tok_api.py as a function of the property
read performed by its `_make_request` call: on `code == 0` it returns the
dict `{access_token: data["data"].get("access_token"), advertiser_ids,
ad_id_validity}` — with no check that a token is present —, on any other
code it raises, and its outer `except TikTokAPIError` re-wraps any raised
error with the prefix `Failed to get access token: `. -/
def get_access_token_with (prop : PropFun) (st : ClientState)
    (net : Except TikTokAPIError TokenResponse) :
    Option (Except TikTokAPIError (TokenInfo × ClientState)) :=
  match make_request_with prop st net with
  | none => none
  | some (Except.error e) =>
    some (Except.error { msg := "Failed to get access token: " ++ e.msg })
  | some (Except.ok (resp, st1)) =>
    if resp.code = some 0 then
      some (Except.ok
        ({ access_token := resp.data_access_token
           advertiser_ids := resp.data_advertiser_ids
           ad_id_validity := resp.data_advertiser_ids.contains st1.ad_id },
         st1))
    else
      some (Except.error
        { msg := "Failed to get access token: API error: " ++
            (resp.message.getD "Unknown error") })

/-- The `access_token` property from tik_tok_api.py, fuel-indexed.  If the
cached token is present and unexpired it is returned as is; otherwise the
property calls `get_access_token` (whose `_make_request` reads this very
property again, on one unit less of fuel).  On a successful refresh the
source guard `if not token_data or "access_token" not in token_data` never
fires — the dict returned by `get_access_token` is non-empty and always
carries the `"access_token"` key, even when its value is `None` — so the
(possibly `None`) token is installed with a one-hour expiry and returned. -/
def access_token_prop : Nat → PropFun
  | 0, _, _ => none
  | fuel + 1, st, net =>
    if needsRefresh st then
      match get_access_token_with (access_token_prop fuel) st net with
      | none => none
      | some (Except.error e) => some (Except.error e)
      | some (Except.ok (token_data, st1)) =>
        some (Except.ok
          (token_data.access_token,
           { st1 with
               access_token_cache := token_data.access_token
               token_expiry := some (st1.now + 3600) }))
    else
      some (Except.ok (st.access_token_cache, st))

/-- `_make_request` (token endpoint) with its property read tied to the
fuel-indexed property. -/
def make_request (fuel : Nat) : ClientState →
    Except TikTokAPIError TokenResponse →
    Option (Except TikTokAPIError (TokenResponse × ClientState)) :=
  make_request_with (access_token_prop fuel)

/-- `get_access_token` with its property read tied to the fuel-indexed
property. -/
def get_access_token (fuel : Nat) : ClientState →
    Except TikTokAPIError TokenResponse →
    Option (Except TikTokAPIError (TokenInfo × ClientState)) :=
  get_access_token_with (access_token_prop fuel)

/-! ## main.py : the per-campaign loop

The loop body of step 3 of `main`.  The net effect of the wrapped
`retry(api.update_campaign_budget, ...)` call for a campaign is an input
`upd`: `Except.ok` if the update eventually succeeded, `Except.error e` if
a `TikTokAPIError` was propagated after the retries.  The loop body is
wrapped in `try`/`except` clauses catching `TikTokAPIError` and every other
`Exception`
(`ZeroDivisionError` from `calculate_roas` included), so each campaign
yields exactly one outcome. -/

/-- The reported outcome of one iteration of the campaign loop in main.py. -/
inductive Outcome where
  | unexpected_error : Outcome
  | skipped_missing_budget : Outcome
  | updated (old_budget new_budget : ℚ) : Outcome
  | no_change (roas : ℚ) : Outcome
  | update_error (e : TikTokAPIError) : Outcome
deriving DecidableEq

/-- One iteration of the campaign loop of main.py: compute the ROAS (a zero
spend raises `ZeroDivisionError`, caught by `except Exception`), then the
adjustment factor, then skip if the budget is missing, then compute the new
budget and update only when it differs. -/
def processCampaign (upd : Campaign → Except TikTokAPIError Unit)
    (campaign : Campaign) : Outcome :=
  if campaign.spend = 0 then Outcome.unexpected_error
  else
    let roas := calculate_roas campaign
    let adjustment_factor := calculate_adjustment_factor roas
    match campaign.budget with
    | none => Outcome.skipped_missing_budget
    | some current_budget =>
      let new_budget := calculate_new_budget current_budget adjustment_factor
      if new_budget ≠ current_budget then
        match upd campaign with
        | Except.ok _ => Outcome.updated current_budget new_budget
        | Except.error e => Outcome.update_error e
      else Outcome.no_change roas

/-- The `for campaign in campaigns` loop of main.py, collecting the
per-campaign outcomes in order. -/
def runCampaignLoop (upd : Campaign → Except TikTokAPIError Unit) :
    List Campaign → List Outcome
  | [] => []
  | campaign :: rest => processCampaign upd campaign :: runCampaignLoop upd rest

/-- A call of one of the three BudgetPolicy functions during the loop. -/
inductive PolicyCall where
  | roas_call (c : Campaign) : PolicyCall
  | adjustment_call (c : Campaign) : PolicyCall
  | new_budget_call (c : Campaign) : PolicyCall
deriving DecidableEq

/-- The campaign a policy call was made for. -/
def PolicyCall.campaign : PolicyCall → Campaign
  | PolicyCall.roas_call c => c
  | PolicyCall.adjustment_call c => c
  | PolicyCall.new_budget_call c => c

/-- The BudgetPolicy calls one iteration of the main.py loop performs, in
source order: `calculate_roas` first (if spend is zero it raises, ending
the iteration), then `calculate_adjustment_factor`, and only after the
missing-budget check `calculate_new_budget`. -/
def policyCalls (campaign : Campaign) : List PolicyCall :=
  if campaign.spend = 0 then [PolicyCall.roas_call campaign]
  else
    [PolicyCall.roas_call campaign, PolicyCall.adjustment_call campaign] ++
      (match campaign.budget with
       | none => []
       | some _ => [PolicyCall.new_budget_call campaign])

/-- All BudgetPolicy calls of one run of main.py, as a function of the two
remote responses: the campaigns are fetched with the configured thresholds
`MIN_SPEND` and `MIN_PAYMENT_RATE`, then processed in order. -/
def runPolicyCalls (campaigns : List CampaignRec)
    (stats_list : List StatRow) : List PolicyCall :=
  ((get_campaign_performance campaigns stats_list MIN_SPEND MIN_PAYMENT_RATE).map
      policyCalls).flatten

/-! ## Claims -/

/-- C3, counterexample: with `MIN_BUDGET = 50`, a zero adjustment factor
does not leave a current budget of 40 unchanged — `calculate_new_budget`
clamps it up to 50. -/
theorem C3_counterexample :
    calculate_new_budget 40 0 ≠ 40 ∧ calculate_new_budget 40 0 = 50 := by
  constructor <;> norm_num [calculate_new_budget, MIN_BUDGET]

/-- C3 (amended): if the adjustment factor is 0 and the current budget is
at least `MIN_BUDGET`, the new budget equals the current budget. -/
theorem C3_zero_factor_identity (current_budget : ℚ)
    (h : MIN_BUDGET ≤ current_budget) :
    calculate_new_budget current_budget 0 = current_budget := by
  unfold calculate_new_budget
  rw [add_zero, mul_one]
  exact max_eq_left h

/-- C3, witness: the amended statement at `current_budget = 60`. -/
theorem C3_zero_factor_identity_witness :
    MIN_BUDGET ≤ (60 : ℚ) ∧ calculate_new_budget 60 0 = 60 :=
  ⟨by norm_num [MIN_BUDGET], C3_zero_factor_identity 60 (by norm_num [MIN_BUDGET])⟩

/-- C8: for every `roas > 0` the adjustment factor lies in
`[-MAX_ADJUSTMENT, MAX_ADJUSTMENT]`, and it equals the raw value
`(roas - TARGET_ROAS) / TARGET_ROAS` whenever that raw value already lies
in the interval. -/
theorem C8_adjustment_factor_bounds (roas : ℚ) (_hroas : 0 < roas) :
    (-MAX_ADJUSTMENT ≤ calculate_adjustment_factor roas ∧
      calculate_adjustment_factor roas ≤ MAX_ADJUSTMENT) ∧
    (-MAX_ADJUSTMENT ≤ (roas - TARGET_ROAS) / TARGET_ROAS →
      (roas - TARGET_ROAS) / TARGET_ROAS ≤ MAX_ADJUSTMENT →
      calculate_adjustment_factor roas = (roas - TARGET_ROAS) / TARGET_ROAS) := by
  unfold calculate_adjustment_factor
  refine ⟨⟨le_max_right _ _, ?_⟩, ?_⟩
  · exact max_le (le_trans (min_le_right _ _) le_rfl)
      (by norm_num [MAX_ADJUSTMENT])
  · intro hlo hhi
    rw [min_eq_left hhi, max_eq_left hlo]

/-- C8, witness: the bounds at `roas = 2`, where the raw value `1/3` lies in
the interval. -/
theorem C8_adjustment_factor_bounds_witness :
    (0 : ℚ) < 2 ∧
    ((-MAX_ADJUSTMENT ≤ calculate_adjustment_factor 2 ∧
       calculate_adjustment_factor 2 ≤ MAX_ADJUSTMENT) ∧
     (-MAX_ADJUSTMENT ≤ ((2 : ℚ) - TARGET_ROAS) / TARGET_ROAS →
       ((2 : ℚ) - TARGET_ROAS) / TARGET_ROAS ≤ MAX_ADJUSTMENT →
       calculate_adjustment_factor 2 = ((2 : ℚ) - TARGET_ROAS) / TARGET_ROAS)) :=
  ⟨by norm_num, C8_adjustment_factor_bounds 2 (by norm_num)⟩

/-- C10: for a negative `max_retries` the loop condition
`attempt <= max_retries` fails at once, so `retry` makes no call, sleeps
never, and falls through to the implicit `return None`. -/
theorem C10_negative_max_retries {ε α : Type} (retryable : ε → Bool)
    (op : Nat → Except ε α) (max_retries : Int) (h : max_retries < 0) :
    retry retryable op max_retries = (RetryResult.fellThrough, 0, 0) := by
  unfold retry
  rw [retryLoop]
  rw [dif_neg (by omega)]

/-- C10, witness: `max_retries = -1` on an always-failing operation. -/
theorem C10_negative_max_retries_witness :
    (-1 : Int) < 0 ∧
    retry (fun _ : Unit => true) (fun _ => (Except.error () : Except Unit Unit))
        (-1) = (RetryResult.fellThrough, 0, 0) :=
  ⟨by decide, C10_negative_max_retries _ _ (-1) (by decide)⟩

/-- Helper for C7: entered at counter value `attempt` with `k` more failing
attempts allowed after this one, the loop on an always-failing retryable
operation makes `k + 1` further calls, sleeps `k` further times, and
re-raises the exception of the final attempt. -/
theorem retryLoop_always_fails {ε α : Type} (retryable : ε → Bool)
    (err : Nat → ε) (hr : ∀ n, retryable (err n) = true) (r : Nat) :
    ∀ (k attempt calls delays : Nat), attempt + k = r →
      retryLoop retryable (fun n => (Except.error (err n) : Except ε α))
          (r : Int) attempt calls delays =
        (RetryResult.raised (err r), calls + k + 1, delays + k) := by
  intro k
  induction k with
  | zero =>
    intro attempt calls delays hak
    rw [retryLoop, dif_pos (by omega)]
    simp only
    rw [if_pos (hr attempt), if_pos (by omega)]
    rw [Nat.add_zero] at hak
    rw [hak]
    simp
  | succ k ih =>
    intro attempt calls delays hak
    rw [retryLoop, dif_pos (by omega)]
    simp only
    rw [if_pos (hr attempt), if_neg (by omega)]
    rw [ih (attempt + 1) (calls + 1) (delays + 1) (by omega)]
    simp only [Prod.mk.injEq, true_and]
    omega

/-- C7: on an operation that always raises a retryable failure and any
`max_retries = r ≥ 0`, `retry` calls the operation exactly `r + 1` times,
sleeps after each of the first `r` failures, and re-raises the exception of
the final attempt unchanged. -/
theorem C7_retry_exhaustion {ε α : Type} (retryable : ε → Bool)
    (err : Nat → ε) (hr : ∀ n, retryable (err n) = true) (r : Nat) :
    retry retryable (fun n => (Except.error (err n) : Except ε α)) (r : Int) =
      (RetryResult.raised (err r), r + 1, r) := by
  unfold retry
  have h := retryLoop_always_fails (α := α) retryable err hr r r 0 0 0 (by omega)
  simpa using h

/-- C7, witness: `max_retries = 2` on the operation raising `n` at attempt
`n`: three calls, two sleeps, and the exception of attempt 2 propagates. -/
theorem C7_retry_exhaustion_witness :
    retry (fun _ : Nat => true)
        (fun n => (Except.error n : Except Nat Unit)) (2 : Int) =
      (RetryResult.raised 2, 3, 2) :=
  C7_retry_exhaustion (fun _ => true) (fun n => n) (fun _ => rfl) 2

/-- C9: given a non-empty campaign list and a report row whose payment rate
strictly exceeds the threshold, a spend exactly equal to `min_spend` makes
the row ineligible, while a spend strictly above it makes the row eligible
(joined to its budget-map entry). -/
theorem C9_eligibility_strict (campaigns : List CampaignRec) (s : StatRow)
    (min_spend min_payment_rate : ℚ) (hne : campaigns ≠ [])
    (hrate : s.total_complete_payment_rate > min_payment_rate) :
    (s.spend = min_spend →
      get_campaign_performance campaigns [s] min_spend min_payment_rate = []) ∧
    (s.spend > min_spend →
      get_campaign_performance campaigns [s] min_spend min_payment_rate =
        [{ campaign_id := s.campaign_id
           spend := s.spend
           total_complete_payment_rate := s.total_complete_payment_rate
           budget := budgetLookup campaigns s.campaign_id }]) := by
  have hempty : campaigns.isEmpty = false := by
    simpa [List.isEmpty_iff] using hne
  constructor
  · intro hs
    unfold get_campaign_performance
    rw [hempty]
    simp only [Bool.false_eq_true, if_false, List.filterMap]
    rw [if_neg (by rw [hs]; exact fun hc => lt_irrefl min_spend hc.1)]
  · intro hs
    unfold get_campaign_performance
    rw [hempty]
    simp only [Bool.false_eq_true, if_false, List.filterMap]
    rw [if_pos ⟨hs, hrate⟩]

/-- C9, witness: one campaign in the list, thresholds `min_spend = 3`,
`min_payment_rate = 2`, a row with payment rate 7: the two conclusions at a
row of spend 3 (excluded) and spend 5 (included) follow from the theorem. -/
theorem C9_eligibility_strict_witness :
    ([CampaignRec.mk "A" 100] ≠ ([] : List CampaignRec)) ∧
    ((StatRow.mk (some "A") 3 7).total_complete_payment_rate > 2) ∧
    (get_campaign_performance [CampaignRec.mk "A" 100]
        [StatRow.mk (some "A") 3 7] 3 2 = []) ∧
    (get_campaign_performance [CampaignRec.mk "A" 100]
        [StatRow.mk (some "A") 5 7] 3 2 =
      [{ campaign_id := some "A"
         spend := 5
         total_complete_payment_rate := 7
         budget := some 100 }]) := by
  refine ⟨by simp, by norm_num, ?_, ?_⟩
  · exact (C9_eligibility_strict [CampaignRec.mk "A" 100]
      (StatRow.mk (some "A") 3 7) 3 2 (by simp) (by norm_num)).1 rfl
  · have h := (C9_eligibility_strict [CampaignRec.mk "A" 100]
      (StatRow.mk (some "A") 5 7) 3 2 (by simp) (by norm_num)).2 (by norm_num)
    rw [h]
    simp [budgetLookup, List.find?]

/-- Shape of a member of the `get_campaign_performance` result: it comes
from a report row passing both strict thresholds, joined to the budget-map
lookup of its id. -/
theorem mem_get_campaign_performance {campaigns : List CampaignRec}
    {stats_list : List StatRow} {min_spend min_payment_rate : ℚ}
    {c : Campaign}
    (hc : c ∈ get_campaign_performance campaigns stats_list min_spend
      min_payment_rate) :
    ∃ s ∈ stats_list,
      (s.spend > min_spend ∧ s.total_complete_payment_rate > min_payment_rate) ∧
      c = { campaign_id := s.campaign_id
            spend := s.spend
            total_complete_payment_rate := s.total_complete_payment_rate
            budget := budgetLookup campaigns s.campaign_id } := by
  unfold get_campaign_performance at hc
  by_cases hne : campaigns.isEmpty
  · rw [if_pos hne] at hc
    simp at hc
  · rw [if_neg hne] at hc
    rw [List.mem_filterMap] at hc
    obtain ⟨s, hs, heq⟩ := hc
    by_cases hcond :
       s.spend > min_spend ∧ s.total_complete_payment_rate > min_payment_rate
    · rw [if_pos hcond] at heq
      exact ⟨s, hs, hcond, (Option.some_inj.mp heq).symm⟩
    · rw [if_neg hcond] at heq
      cases heq

/-- C5, counterexample: a report row whose campaign id `B` is absent from
the budget map is not excluded — it is returned, with budget `None`. -/
theorem C5_counterexample :
    Campaign.mk (some "B") 1 1 none ∈
      get_campaign_performance [CampaignRec.mk "A" 100]
        [StatRow.mk (some "B") 1 1] 0 0 ∧
    budgetLookup [CampaignRec.mk "A" 100] (some "B") = none := by
  constructor <;> decide

/-- C5 (amended): every returned campaign corresponds to a report row (so a
campaign present in the budget map but absent from the report is excluded),
and carries the budget-map lookup of its id as budget — `None`, rather than
exclusion, when its id is absent from the budget map. -/
theorem C5_join_semantics (campaigns : List CampaignRec)
    (stats_list : List StatRow) (min_spend min_payment_rate : ℚ)
    (c : Campaign)
    (hc : c ∈ get_campaign_performance campaigns stats_list min_spend
      min_payment_rate) :
    (∃ s ∈ stats_list, c.campaign_id = s.campaign_id) ∧
    c.budget = budgetLookup campaigns c.campaign_id := by
  obtain ⟨s, hs, _hcond, rfl⟩ := mem_get_campaign_performance hc
  exact ⟨⟨s, hs, rfl⟩, rfl⟩

/-- C5, witness: the amended statement at the counterexample input. -/
theorem C5_join_semantics_witness :
    (∃ s ∈ [StatRow.mk (some "B") 1 1],
      (Campaign.mk (some "B") 1 1 none).campaign_id = s.campaign_id) ∧
    (Campaign.mk (some "B") 1 1 none).budget =
      budgetLookup [CampaignRec.mk "A" 100]
        (Campaign.mk (some "B") 1 1 none).campaign_id :=
  C5_join_semantics [CampaignRec.mk "A" 100] [StatRow.mk (some "B") 1 1]
    0 0 (Campaign.mk (some "B") 1 1 none) (by decide)

/-- Which policy calls one loop iteration makes for a campaign: every call
is for that campaign, and `calculate_new_budget` is reached only when the
budget is known. -/
theorem policyCalls_spec (camp : Campaign) (p : PolicyCall)
    (hp : p ∈ policyCalls camp) :
    p.campaign = camp ∧
    ∀ c, p = PolicyCall.new_budget_call c → c = camp ∧ camp.budget ≠ none := by
  unfold policyCalls at hp
  by_cases h0 : camp.spend = 0
  · rw [if_pos h0] at hp
    simp only [List.mem_singleton] at hp
    subst hp
    exact ⟨rfl, fun c hc => by cases hc⟩
  · rw [if_neg h0] at hp
    cases hb : camp.budget with
    | none =>
      rw [hb] at hp
      simp at hp
      rcases hp with rfl | rfl
      · exact ⟨rfl, fun c hc => by cases hc⟩
      · exact ⟨rfl, fun c hc => by cases hc⟩
    | some b =>
      rw [hb] at hp
      simp at hp
      rcases hp with rfl | rfl | rfl
      · exact ⟨rfl, fun c hc => by cases hc⟩
      · exact ⟨rfl, fun c hc => by cases hc⟩
      · refine ⟨rfl, fun c hc => ?_⟩
        cases hc
        exact ⟨rfl, by simp [hb]⟩

/-- C4, counterexample: in a run whose report has a row with id `B` absent
from the campaign list, `calculate_roas` is invoked on a `Campaign` whose
budget is `None` — the missing-budget skip happens only later. -/
theorem C4_counterexample :
    PolicyCall.roas_call (Campaign.mk (some "B") 1 1 none) ∈
      runPolicyCalls [CampaignRec.mk "A" 100] [StatRow.mk (some "B") 1 1] ∧
    (Campaign.mk (some "B") 1 1 none).budget = none := by
  constructor <;> decide

/-- C4 (amended): every policy call of a run is on a campaign with
`spend > 0`, and `calculate_new_budget` in particular is only invoked on
campaigns with a known budget; but `calculate_roas` and
`calculate_adjustment_factor` are invoked before the missing-budget skip. -/
theorem C4_policy_invariant (campaigns : List CampaignRec)
    (stats_list : List StatRow) (p : PolicyCall)
    (hp : p ∈ runPolicyCalls campaigns stats_list) :
    0 < p.campaign.spend ∧
    ∀ c, p = PolicyCall.new_budget_call c → c.budget ≠ none := by
  unfold runPolicyCalls at hp
  rw [List.mem_flatten] at hp
  obtain ⟨l, hl, hpl⟩ := hp
  rw [List.mem_map] at hl
  obtain ⟨camp, hcamp, rfl⟩ := hl
  obtain ⟨s, _hs, ⟨hspend, _hrate⟩, rfl⟩ := mem_get_campaign_performance hcamp
  obtain ⟨hpc, hnb⟩ := policyCalls_spec _ _ hpl
  constructor
  · rw [hpc]
    simpa [MIN_SPEND] using hspend
  · intro c hc
    obtain ⟨rfl, hbud⟩ := hnb c hc
    exact hbud

/-- C4, witness: a run with one eligible campaign of spend 1 and known
budget; the spend bound for its `calculate_roas` call follows from the
amended statement. -/
theorem C4_policy_invariant_witness :
    PolicyCall.roas_call (Campaign.mk (some "A") 1 1 (some 100)) ∈
      runPolicyCalls [CampaignRec.mk "A" 100] [StatRow.mk (some "A") 1 1] ∧
    0 < (PolicyCall.roas_call
        (Campaign.mk (some "A") 1 1 (some 100))).campaign.spend :=
  ⟨by decide,
   (C4_policy_invariant [CampaignRec.mk "A" 100] [StatRow.mk (some "A") 1 1]
      (PolicyCall.roas_call (Campaign.mk (some "A") 1 1 (some 100)))
      (by decide)).1⟩

/-- The campaign loop is an independent map over the campaigns: each
iteration produces its outcome via `processCampaign` alone. -/
theorem runCampaignLoop_eq_map (upd : Campaign → Except TikTokAPIError Unit) :
    ∀ cs : List Campaign, runCampaignLoop upd cs = cs.map (processCampaign upd)
  | [] => rfl
  | c :: rest => by
    rw [runCampaignLoop, List.map_cons, runCampaignLoop_eq_map upd rest]

/-- C6: if the update of the campaign at position `i` fails after its
retries, that failure is reported as the outcome at position `i`, yet the
loop still produces one outcome for every campaign of the list, each
computed by its own iteration only — a per-campaign failure never aborts
the batch. -/
theorem C6_batch_failure_tolerance (upd : Campaign → Except TikTokAPIError Unit)
    (cs : List Campaign) (i : Nat) (hi : i < cs.length) (e : TikTokAPIError)
    (hfail : processCampaign upd cs[i] = Outcome.update_error e) :
    (runCampaignLoop upd cs)[i]? = some (Outcome.update_error e) ∧
    (runCampaignLoop upd cs).length = cs.length ∧
    ∀ j, ∀ hj : j < cs.length,
      (runCampaignLoop upd cs)[j]? = some (processCampaign upd cs[j]) := by
  rw [runCampaignLoop_eq_map]
  refine ⟨?_, by simp, ?_⟩
  · rw [List.getElem?_map, List.getElem?_eq_getElem hi, Option.map_some', hfail]
  · intro j hj
    rw [List.getElem?_map, List.getElem?_eq_getElem hj, Option.map_some']

/-- C6, witness: two campaigns, every update raising; campaign `A` needs an
update and its failure is the outcome at position 0, while the loop still
yields an outcome for both campaigns. -/
theorem C6_batch_failure_tolerance_witness :
    (runCampaignLoop (fun _ => Except.error (TikTokAPIError.mk "boom"))
        [Campaign.mk (some "A") 100 200 (some 100),
         Campaign.mk (some "B") 100 150 (some 100)])[0]? =
      some (Outcome.update_error (TikTokAPIError.mk "boom")) ∧
    (runCampaignLoop (fun _ => Except.error (TikTokAPIError.mk "boom"))
        [Campaign.mk (some "A") 100 200 (some 100),
         Campaign.mk (some "B") 100 150 (some 100)]).length = 2 :=
  ⟨(C6_batch_failure_tolerance (fun _ => Except.error (TikTokAPIError.mk "boom"))
      [Campaign.mk (some "A") 100 200 (some 100),
       Campaign.mk (some "B") 100 150 (some 100)] 0 (by decide)
      (TikTokAPIError.mk "boom")
      (by norm_num [processCampaign, calculate_roas, calculate_adjustment_factor,
        calculate_new_budget, TARGET_ROAS, MAX_ADJUSTMENT, MIN_BUDGET])).1,
   (C6_batch_failure_tolerance (fun _ => Except.error (TikTokAPIError.mk "boom"))
      [Campaign.mk (some "A") 100 200 (some 100),
       Campaign.mk (some "B") 100 150 (some 100)] 0 (by decide)
      (TikTokAPIError.mk "boom")
      (by norm_num [processCampaign, calculate_roas, calculate_adjustment_factor,
        calculate_new_budget, TARGET_ROAS, MAX_ADJUSTMENT, MIN_BUDGET])).2.1⟩

/-- C1: whenever no token is cached (or the cached one has expired), the
token-acquisition path does not terminate — for every fuel bound, both the
`access_token` property and `get_access_token` exhaust it, because
`_make_request` reads the `access_token` property to build its headers and
the property then calls `get_access_token` again before any state changes. -/
theorem C1_token_refresh_diverges (fuel : Nat) :
    ∀ (st : ClientState) (net : Except TikTokAPIError TokenResponse),
      needsRefresh st = true →
      access_token_prop fuel st net = none ∧ get_access_token fuel st net = none := by
  induction fuel with
  | zero =>
    intro st net _h
    exact ⟨rfl, rfl⟩
  | succ fuel ih =>
    intro st net h
    have hget : get_access_token fuel st net = none := (ih st net h).2
    have hprop : access_token_prop (fuel + 1) st net = none := by
      show (if needsRefresh st then _ else _) = none
      rw [h, if_pos rfl]
      have hw : get_access_token_with (access_token_prop fuel) st net = none := hget
      rw [hw]
    refine ⟨hprop, ?_⟩
    show get_access_token_with (access_token_prop (fuel + 1)) st net = none
    unfold get_access_token_with make_request_with
    rw [hprop]

/-- C1, witness: a fresh client (nothing cached) with the network ready to
answer: after five nested reads of the property the chain is still
recursing, both through the property and through `get_access_token`. -/
theorem C1_token_refresh_diverges_witness :
    needsRefresh (ClientState.mk none none "7041312028410778178" 0) = true ∧
    access_token_prop 5 (ClientState.mk none none "7041312028410778178" 0)
        (Except.ok (TokenResponse.mk (some 0) none (some "tok") [])) = none ∧
    get_access_token 5 (ClientState.mk none none "7041312028410778178" 0)
        (Except.ok (TokenResponse.mk (some 0) none (some "tok") [])) = none :=
  ⟨rfl,
   (C1_token_refresh_diverges 5 (ClientState.mk none none "7041312028410778178" 0)
      (Except.ok (TokenResponse.mk (some 0) none (some "tok") [])) rfl).1,
   (C1_token_refresh_diverges 5 (ClientState.mk none none "7041312028410778178" 0)
      (Except.ok (TokenResponse.mk (some 0) none (some "tok") [])) rfl).2⟩

/-- C2: when the token endpoint answers with success code 0 but its data
omits `access_token`, `get_access_token` does not fail — it returns the
success dict whose `access_token` entry is `None` (state shown with a
valid cached token so the request can be issued at all). -/
theorem C2_missing_token_returned (fuel : Nat) (st : ClientState)
    (msg : Option String) (ids : List String)
    (h : needsRefresh st = false) :
    get_access_token (fuel + 1) st
        (Except.ok (TokenResponse.mk (some 0) msg none ids)) =
      some (Except.ok
        (TokenInfo.mk none ids (ids.contains st.ad_id), st)) := by
  have hprop : access_token_prop (fuel + 1) st
      (Except.ok (TokenResponse.mk (some 0) msg none ids)) =
        some (Except.ok (st.access_token_cache, st)) := by
    show (if needsRefresh st then _ else _) = _
    rw [h, if_neg (by simp)]
  show get_access_token_with (access_token_prop (fuel + 1)) st _ = _
  unfold get_access_token_with make_request_with
  rw [hprop]
  simp

/-- C2, witness: a client holding an unexpired token, a code-0 response
whose data has no `access_token` field: the call returns the tokenless
success dict instead of raising. -/
theorem C2_missing_token_returned_witness :
    needsRefresh (ClientState.mk (some "tok") (some 100) "adv" 0) = false ∧
    get_access_token 1 (ClientState.mk (some "tok") (some 100) "adv" 0)
        (Except.ok (TokenResponse.mk (some 0) none none ["adv"])) =
      some (Except.ok
        (TokenInfo.mk none ["adv"] ((["adv"] : List String).contains "adv"),
         ClientState.mk (some "tok") (some 100) "adv" 0)) :=
  ⟨by decide,
   C2_missing_token_returned 0 (ClientState.mk (some "tok") (some 100) "adv" 0)
     none ["adv"] (by decide)⟩
